import Mathlib

/-!
Verification of the klaviyo-node client library against its specification.

The development shallowly embeds the request-dispatch and retry subsystem of
`src/lib/index.js`: the retry classification predicate, the response and error
handlers of the dispatcher, the operation facade methods with their
precondition checks, the payload encoding pipeline (JSON serialization,
UTF-8 bytes, base64), and the constructor's registration of the retry policy
on the module-global transport instance.

The bounded retry loop and the exponential backoff delay live in the
third-party transport layer (axios-retry) and are not part of the repository
source; they are modelled from the specification where noted.
-/

/-- JSON-like values: the shape of request payloads and decoded response
bodies handled by the client. -/
inductive JValue where
  | null
  | bool (b : Bool)
  | num (n : Int)
  | str (s : String)
  | arr (xs : List JValue)
  | obj (fields : List (String × JValue))

/-- JavaScript truthiness of a possibly-absent property value, as used by the
`assert(x)` precondition checks in the source: an absent property reads as
`undefined` and is falsy; `null`, `false`, the number `0` and the empty
string are falsy; everything else is truthy. -/
def jsTruthy : Option JValue → Bool
  | none => false
  | some JValue.null => false
  | some (JValue.bool b) => b
  | some (JValue.num n) => n != 0
  | some (JValue.str s) => s != ""
  | some (JValue.arr _) => true
  | some (JValue.obj _) => true

/-- Strict-equality test of a decoded response body against the number
literal `0`, as in `response.data === 0` (src/lib/index.js line 144). -/
def isLiteralZero : JValue → Bool
  | JValue.num 0 => true
  | _ => false

/-- Escape of one character inside a JSON string literal, following the
escaping performed by `JSON.stringify`. -/
def escChar (c : Char) : String :=
  if c = '"' then "\\\""
  else if c = '\\' then "\\\\"
  else if c = '\n' then "\\n"
  else if c = '\t' then "\\t"
  else if c = '\r' then "\\r"
  else String.mk [c]

/-- JSON string literal for `s`, double-quoted and escaped. -/
def jsonQuote (s : String) : String :=
  "\"" ++ String.join (s.data.map escChar) ++ "\""

mutual

/-- JSON serialization of a value, modelling `JSON.stringify` on the payload
objects built by `track` and `identify` (object fields keep insertion
order, as `JSON.stringify` does for string keys). -/
def stringifyV : JValue → String
  | JValue.null => "null"
  | JValue.bool true => "true"
  | JValue.bool false => "false"
  | JValue.num n => toString n
  | JValue.str s => jsonQuote s
  | JValue.arr xs => "[" ++ stringifyArr xs ++ "]"
  | JValue.obj fs => "\x7b" ++ stringifyObj fs ++ "\x7d"

/-- Comma-separated serialization of array elements. -/
def stringifyArr : List JValue → String
  | [] => ""
  | [x] => stringifyV x
  | x :: y :: xs => stringifyV x ++ "," ++ stringifyArr (y :: xs)

/-- Comma-separated serialization of object fields. -/
def stringifyObj : List (String × JValue) → String
  | [] => ""
  | [(k, v)] => jsonQuote k ++ ":" ++ stringifyV v
  | (k, v) :: p :: fs => jsonQuote k ++ ":" ++ stringifyV v ++ "," ++ stringifyObj (p :: fs)

end

/-- UTF-8 encoding of one character, modelling what `Buffer.from(string)`
produces for each code point. -/
def utf8Bytes (c : Char) : List Nat :=
  let n := c.toNat
  if n < 128 then [n]
  else if n < 2048 then [192 + n / 64, 128 + n % 64]
  else if n < 65536 then [224 + n / 4096, 128 + n / 64 % 64, 128 + n % 64]
  else [240 + n / 262144, 128 + n / 4096 % 64, 128 + n / 64 % 64, 128 + n % 64]

/-- UTF-8 byte sequence of a string, modelling `Buffer.from(s)`. -/
def strBytes (s : String) : List Nat :=
  s.data.flatMap utf8Bytes

/-- The base64 alphabet in index order. -/
def b64Alpha : List Char :=
  "ABCDEFGHIJKLMNOPQRSTUVWXYZabcdefghijklmnopqrstuvwxyz0123456789+/".data

/-- Character of the base64 alphabet at a 6-bit index. -/
def b64Char (n : Nat) : Char := b64Alpha.getD n '='

/-- Index of a character in the base64 alphabet. -/
def b64CharIndex (c : Char) : Nat := b64Alpha.indexOf c

/-- Base64 encoding of a byte sequence, with `=` padding, modelling
`buffer.toString(base64)`. -/
def b64EncodeBytes : List Nat → List Char
  | [] => []
  | [a] => [b64Char (a / 4), b64Char (a % 4 * 16), '=', '=']
  | [a, b] => [b64Char (a / 4), b64Char (a % 4 * 16 + b / 16), b64Char (b % 16 * 4), '=']
  | a :: b :: c :: rest =>
    b64Char (a / 4) :: b64Char (a % 4 * 16 + b / 16) :: b64Char (b % 16 * 4 + c / 64) ::
      b64Char (c % 64) :: b64EncodeBytes rest

/-- Base64 decoding back to the byte sequence; `none` on malformed input. -/
def b64DecodeBytes : List Char → Option (List Nat)
  | w :: x :: y :: z :: rest =>
    if y = '=' then
      if z = '=' ∧ rest = [] then
        some [b64CharIndex w * 4 + b64CharIndex x / 16]
      else none
    else if z = '=' then
      if rest = [] then
        some [b64CharIndex w * 4 + b64CharIndex x / 16,
              b64CharIndex x % 16 * 16 + b64CharIndex y / 4]
      else none
    else
      (b64DecodeBytes rest).map (fun tl =>
        (b64CharIndex w * 4 + b64CharIndex x / 16) ::
        (b64CharIndex x % 16 * 16 + b64CharIndex y / 4) ::
        (b64CharIndex y % 4 * 64 + b64CharIndex z) :: tl)
  | [] => some []
  | _ => none

/-- Base64 encoding of a string via its UTF-8 bytes, modelling
`Buffer.from(s).toString(base64)` (src/lib/index.js line 187). -/
def base64EncodeString (s : String) : String :=
  String.mk (b64EncodeBytes (strBytes s))

/-- Base64 decoding of a string back to the byte sequence it encodes. -/
def base64DecodeToBytes (t : String) : Option (List Nat) :=
  b64DecodeBytes t.data

/-- Log levels used by the client's logger. -/
inductive LogLevel where
  | info
  | warn
  | verbose
  | error
deriving DecidableEq, BEq

/-- One leveled log line. -/
abbrev LogEntry := LogLevel × String

/-- A fulfilled HTTP exchange (axios fulfills exactly the 2xx responses under
its default status validation), carrying the decoded body. -/
structure HttpResponse where
  status : Nat
  data : JValue

/-- An axios error outcome: either a connection-level failure with no
response (`isNetworkError` is what `axiosRetry.isNetworkError` reports), or
a received non-2xx response attached under `response`; an error with no
response and an unrecognized cause has both `isNetworkError = false` and
`response = none`. -/
structure AxiosError where
  isNetworkError : Bool
  response : Option HttpResponse

/-- Retry classification from `_isErrorRetryable` (src/lib/index.js lines
94-116): network errors retry; no response means unclassifiable, no retry;
5xx and 429 retry; everything else does not. -/
def isErrorRetryable (e : AxiosError) : Bool :=
  if e.isNetworkError then true
  else
    match e.response with
    | none => false
    | some r =>
      if 500 ≤ r.status ∧ r.status ≤ 599 then true
      else if r.status = 429 then true
      else false

/-- Outcome of one HTTP attempt: fulfilled (2xx) or failed. -/
inductive Attempt where
  | ok (r : HttpResponse)
  | err (e : AxiosError)

/-- Status descriptor used by the terminal error handler:
`get(error, response.status, Unkown Status)` (src/lib/index.js line 154;
the misspelling `Unkown Status` is the source's literal). -/
def statusDescriptor (e : AxiosError) : String :=
  match e.response with
  | some r => toString r.status
  | none => "Unkown Status"

/-- Log entry produced by the fulfilled-response handler of
`_requestKlaviyo` (src/lib/index.js lines 143-151): `warn` when the decoded
body is the literal `0`, `verbose` otherwise. -/
def successLogEntry (r : HttpResponse) : LogEntry :=
  if isLiteralZero r.data then
    (LogLevel.warn, "Klaviyo rejected the track request")
  else
    (LogLevel.verbose, "Successfully sent request to Klaviyo")

/-- Log entry produced by the rejection handler of `_requestKlaviyo`
(src/lib/index.js lines 153-158). -/
def failureLogEntry (endpoint : String) (e : AxiosError) : LogEntry :=
  (LogLevel.error, "Encountered " ++ statusDescriptor e ++ " from GET to " ++ endpoint)

/-- Result of a dispatched call: how many HTTP attempts were issued, the log
lines emitted, and the settled outcome (resolved body or rejected error). -/
structure DispatchResult where
  attempts : Nat
  log : List LogEntry
  outcome : Except AxiosError JValue

/-- Modelled from the spec: the bounded retry loop of the transport layer
(axios-retry, configured at src/lib/index.js lines 81-85 but itself not part
of the repository source). `outcomes i` is what the transport produces on
the i-th HTTP attempt. A fulfilled exchange settles at once through the
success handler; a failure is retried while the classification says
retryable and retries remain, and otherwise settles through the terminal
error handler. Retried attempts produce no log lines of their own: the
dispatcher's handlers only observe the final settlement. -/
def dispatchGo (endpoint : String) (outcomes : Nat → Attempt) :
    Nat → Nat → DispatchResult
  | retriesLeft, idx =>
    match outcomes idx with
    | Attempt.ok r => ⟨1, [successLogEntry r], Except.ok r.data⟩
    | Attempt.err e =>
      if isErrorRetryable e then
        match retriesLeft with
        | 0 => ⟨1, [failureLogEntry endpoint e], Except.error e⟩
        | n + 1 =>
          let rest := dispatchGo endpoint outcomes n (idx + 1)
          ⟨rest.attempts + 1, rest.log, rest.outcome⟩
      else ⟨1, [failureLogEntry endpoint e], Except.error e⟩

/-- One full `_requestKlaviyo` call against a transport behavior: the
endpoint is logged at `info` on entry (src/lib/index.js line 133), then the
exchange runs under the bounded retry policy with `retryCount` retries. -/
def requestKlaviyoCall (endpoint : String) (retryCount : Nat)
    (outcomes : Nat → Attempt) : DispatchResult :=
  let r := dispatchGo endpoint outcomes retryCount 0
  ⟨r.attempts, (LogLevel.info, endpoint) :: r.log, r.outcome⟩

/-- Modelled from the spec: the backoff delay before the n-th retry
(`axiosRetry.exponentialDelay`, selected at src/lib/index.js line 84 but not
part of the repository source) — an exponentially growing function of the
retry number with no fixed cap, in milliseconds. -/
def exponentialDelay (retryNumber : Nat) : Nat :=
  2 ^ retryNumber * 100

/-- The per-instance fields the constructor stores on `this`
(src/lib/index.js lines 41-42, 70). The retry count is notably absent: the
source never stores it on the instance, it only registers it on the
module-global axios instance. -/
structure KlaviyoClient where
  publicKey : String
  privateKey : Option String
  apiBasePath : String

/-- Truthiness check of the configured private key, from `ensurePrivateKey`
(src/lib/index.js lines 296-298): `assert(this.privateKey, ...)`. -/
def ensurePrivateKey (c : KlaviyoClient) : Bool :=
  match c.privateKey with
  | some s => s != ""
  | none => false

/-- The configured private key value, as read where the source embeds
`this.privateKey` into a request body. -/
def privateKeyValue (c : KlaviyoClient) : String :=
  (c.privateKey).getD ""

/-- Identifier check from `ensureIdentifier` (src/lib/index.js lines
282-285): `assert(customerProperties.$email || customerProperties.$id, ...)`,
a JavaScript truthiness test on the two property reads. -/
def ensureIdentifier (customerProperties : List (String × JValue)) : Bool :=
  jsTruthy (customerProperties.lookup "$email") ||
    jsTruthy (customerProperties.lookup "$id")

/-- Endpoint URL construction from `_requestKlaviyo` (src/lib/index.js
lines 131-132): the base path, then `/v/` when an api version is given
(truthily) and `/` otherwise, then the resource path. -/
def endpointUrl (basePath : String) (apiVersion : Option String) (path : String) : String :=
  basePath ++
    (match apiVersion with
      | some v => if v != "" then "/" ++ v ++ "/" else "/"
      | none => "/") ++ path

/-- One `profiles` entry of the subscribe body, the object built by
`(email) => (\x7bemail\x7d)` (src/lib/index.js line 266). -/
structure ProfileEntry where
  email : String
deriving DecidableEq

/-- Request body payload: form-urlencoded pairs (suppress) or the structured
JSON body of subscribe. -/
inductive BodyPayload where
  | form (fields : List (String × String))
  | json (apiKey : String) (profiles : List ProfileEntry)

/-- The axios request parameter object built by `_requestKlaviyo`
(src/lib/index.js lines 136-141): method, resolved URL, and the optional
query parameters and body. -/
structure RequestSpec where
  method : String
  url : String
  params : Option (List (String × String))
  data : Option BodyPayload

/-- Request construction of `_requestKlaviyo` (src/lib/index.js lines
130-141), up to the point where the request is handed to the transport. -/
def requestKlaviyoSpec (c : KlaviyoClient) (apiVersion : Option String) (path : String)
    (params : Option (List (String × String))) (data : Option BodyPayload)
    (method : String) : RequestSpec :=
  ⟨method, endpointUrl c.apiBasePath apiVersion path, params, data⟩

/-- The `track` facade method (src/lib/index.js lines 174-193): requires an
identifier, builds the event object, injects the public key under `token`,
base64-encodes the JSON serialization and sends it as the single `data`
query parameter of a GET to the `track` path. A failed precondition is the
synchronous assertion failure, carried here as `Except.error`. -/
def track (c : KlaviyoClient) (eventName : String)
    (customerProperties eventProperties : List (String × JValue)) :
    Except String RequestSpec :=
  if ensureIdentifier customerProperties then
    let data := JValue.obj
      [("event", JValue.str eventName),
       ("properties", JValue.obj eventProperties),
       ("customer_properties", JValue.obj customerProperties),
       ("token", JValue.str c.publicKey)]
    let payload := base64EncodeString (stringifyV data)
    Except.ok (requestKlaviyoSpec c none "track" (some [("data", payload)]) none "get")
  else
    Except.error "No identifier ($email or $id) found in customerProperties"

/-- The `identify` facade method (src/lib/index.js lines 205-223): same
identifier precondition and encoding pipeline as `track`, with a
`properties`-and-`token` object sent to the `identify` path. -/
def identify (c : KlaviyoClient) (customerProperties : List (String × JValue)) :
    Except String RequestSpec :=
  if ensureIdentifier customerProperties then
    let data := JValue.obj
      [("properties", JValue.obj customerProperties),
       ("token", JValue.str c.publicKey)]
    let payload := base64EncodeString (stringifyV data)
    Except.ok (requestKlaviyoSpec c none "identify" (some [("data", payload)]) none "get")
  else
    Except.error "No identifier ($email or $id) found in customerProperties"

/-- The `suppress` facade method (src/lib/index.js lines 232-246):
`assert(!!email)`, then `ensurePrivateKey()`, then a POST of the
form-urlencoded `api_key` and `email` pairs to `v1/people/exclusions`. -/
def suppress (c : KlaviyoClient) (email : String) : Except String RequestSpec :=
  if email != "" then
    if ensurePrivateKey c then
      Except.ok (requestKlaviyoSpec c (some "v1") "people/exclusions" none
        (some (BodyPayload.form [("api_key", privateKeyValue c), ("email", email)])) "post")
    else
      Except.error "Klaviyo private key not set"
  else
    Except.error "Email is required"

/-- The `subscribe` facade method (src/lib/index.js lines 256-271):
`assert(!!listId)`, then `assert(emails && emails.length)` (the argument may
be absent, hence the Option), then `ensurePrivateKey()`; the body carries
`api_key` and the `profiles` built by `emails.filter((e) => e).map((email)
=> (\x7bemail\x7d))` — truthiness filtering drops exactly the empty-string
entries — and is POSTed to `v2/list/.../subscribe`. -/
def subscribe (c : KlaviyoClient) (listId : String) (emails : Option (List String)) :
    Except String RequestSpec :=
  if listId != "" then
    if (match emails with
        | some l => decide (l.length ≠ 0)
        | none => false) then
      if ensurePrivateKey c then
        let l := emails.getD []
        Except.ok (requestKlaviyoSpec c (some "v2") ("list/" ++ listId ++ "/subscribe") none
          (some (BodyPayload.json (privateKeyValue c)
            ((l.filter (fun e => e != "")).map (fun email => ⟨email⟩)))) "post")
      else
        Except.error "Klaviyo private key not set"
    else
      Except.error "Parmeter emails is not valid array"
  else
    Except.error "listId is required"

/-- Outcome of one public-operation call: resolved with a decoded body,
rejected with the transport error, or a synchronous assertion failure raised
before any request was issued. -/
inductive CallOutcome where
  | resolved (v : JValue)
  | rejected (e : AxiosError)
  | raised (msg : String)

/-- Run one facade call against a transport behavior: an assertion failure
settles at once with zero HTTP attempts, otherwise the built request is
dispatched under the retry policy. Returns the number of HTTP attempts
issued and the settled outcome. -/
def runCall (spec : Except String RequestSpec) (retryCount : Nat)
    (outcomes : Nat → Attempt) : Nat × CallOutcome :=
  match spec with
  | Except.error m => (0, CallOutcome.raised m)
  | Except.ok rq =>
    let r := requestKlaviyoCall rq.url retryCount outcomes
    (r.attempts,
      match r.outcome with
      | Except.ok v => CallOutcome.resolved v
      | Except.error e => CallOutcome.rejected e)

/-- One retry-policy registration on the module-global axios instance, as
performed by `axiosRetry(axios, ...)`. -/
structure RetryRegistration where
  retries : Nat
deriving DecidableEq

/-- The mutable state of the module-global axios instance relevant to
retries: the list of retry-policy registrations attached to it, in
registration order. -/
abbrev AxiosGlobalState := List RetryRegistration

/-- The constructor (src/lib/index.js lines 36-86): asserts the public key,
stores the keys and base path on the instance, and then calls
`axiosRetry(axios, ...)` — `axios` being the module-global instance imported
at the top of the file — which appends a retry registration carrying
`options.retryCount` to that shared global state. -/
def klaviyoConstructor (global : AxiosGlobalState) (publicKey : String)
    (privateKey : Option String) (retryCount : Nat) (apiBasePath : String) :
    Except String (KlaviyoClient × AxiosGlobalState) :=
  if publicKey != "" then
    Except.ok (⟨publicKey, privateKey, apiBasePath⟩, global ++ [⟨retryCount⟩])
  else
    Except.error "You must pass your Klaviyo public key."

/-- The retry registrations governing a call issued through a given client:
every call goes through the module-global `axios(requestParameter)`
(src/lib/index.js line 143), so the registrations in effect are all of the
global state's, independent of which client instance issued the call. -/
def retryRegistrationsGoverning (_client : KlaviyoClient)
    (global : AxiosGlobalState) : AxiosGlobalState :=
  global

/-- Indexing the base64 alphabet inverts taking a character from it. -/
theorem b64CharIndex_b64Char : ∀ n, n < 64 → b64CharIndex (b64Char n) = n := by
  decide

/-- Alphabet characters are never the padding character. -/
theorem b64Char_ne_pad : ∀ n, n < 64 → b64Char n ≠ '=' := by
  decide

/-- Base64 decoding inverts base64 encoding on byte sequences. -/
theorem b64DecodeBytes_b64EncodeBytes :
    ∀ bs : List Nat, (∀ b ∈ bs, b < 256) →
      b64DecodeBytes (b64EncodeBytes bs) = some bs
  | [], _ => rfl
  | [a], h => by
    have ha : a < 256 := h a (by simp)
    have h1 := b64CharIndex_b64Char (a / 4) (by omega)
    have h2 := b64CharIndex_b64Char (a % 4 * 16) (by omega)
    simp [b64EncodeBytes, b64DecodeBytes, h1, h2]
    omega
  | [a, b], h => by
    have ha : a < 256 := h a (by simp)
    have hb : b < 256 := h b (by simp)
    have h1 := b64CharIndex_b64Char (a / 4) (by omega)
    have h2 := b64CharIndex_b64Char (a % 4 * 16 + b / 16) (by omega)
    have h3 := b64CharIndex_b64Char (b % 16 * 4) (by omega)
    have hne := b64Char_ne_pad (b % 16 * 4) (by omega)
    simp [b64EncodeBytes, b64DecodeBytes, h1, h2, h3, hne]
    constructor <;> omega
  | a :: b :: c :: rest, h => by
    have ha : a < 256 := h a (by simp)
    have hb : b < 256 := h b (by simp)
    have hc : c < 256 := h c (by simp)
    have ih := b64DecodeBytes_b64EncodeBytes rest (fun x hx => h x (by simp at hx ⊢; tauto))
    have h1 := b64CharIndex_b64Char (a / 4) (by omega)
    have h2 := b64CharIndex_b64Char (a % 4 * 16 + b / 16) (by omega)
    have h3 := b64CharIndex_b64Char (b % 16 * 4 + c / 64) (by omega)
    have h4 := b64CharIndex_b64Char (c % 64) (by omega)
    have hne1 := b64Char_ne_pad (b % 16 * 4 + c / 64) (by omega)
    have hne2 := b64Char_ne_pad (c % 64) (by omega)
    simp [b64EncodeBytes, b64DecodeBytes, h1, h2, h3, h4, hne1, hne2, ih]
    refine ⟨by omega, by omega, by omega⟩

/-- Every UTF-8 byte of a character is below 256. -/
theorem utf8Bytes_lt (c : Char) : ∀ b ∈ utf8Bytes c, b < 256 := by
  have hv : c.toNat < 1114112 := by
    rcases c.valid with hle | ⟨_, hlt⟩ <;> simp [Char.toNat] <;> omega
  intro b hb
  simp only [utf8Bytes] at hb
  split at hb <;> rename_i h1
  · simp at hb; omega
  · split at hb <;> rename_i h2
    · simp at hb; rcases hb with hb | hb <;> omega
    · split at hb <;> rename_i h3
      · simp at hb; rcases hb with hb | hb | hb <;> omega
      · simp at hb; rcases hb with hb | hb | hb | hb <;> omega

/-- Every byte of a string's UTF-8 encoding is below 256. -/
theorem strBytes_lt (s : String) : ∀ b ∈ strBytes s, b < 256 := by
  intro b hb
  simp only [strBytes, List.mem_flatMap] at hb
  rcases hb with ⟨c, _, hc⟩
  exact utf8Bytes_lt c b hc

/-- Base64 decoding of an encoded string recovers the string's UTF-8
bytes. -/
theorem base64_roundtrip (s : String) :
    base64DecodeToBytes (base64EncodeString s) = some (strBytes s) := by
  simp only [base64DecodeToBytes, base64EncodeString]
  exact b64DecodeBytes_b64EncodeBytes (strBytes s) (strBytes_lt s)

/-- C1. The retry classification returns retryable exactly for
connection-level network failures, received 5xx statuses and received 429;
every other received status, and an error with no response and an
unrecognized cause, classify as not retryable. -/
theorem C1_retry_classification (e : AxiosError) :
    isErrorRetryable e = true ↔
      (e.isNetworkError = true ∨
        ∃ r, e.response = some r ∧
          ((500 ≤ r.status ∧ r.status ≤ 599) ∨ r.status = 429)) := by
  rcases e with ⟨net, resp⟩
  cases net
  · cases resp with
    | none => simp [isErrorRetryable]
    | some r =>
      simp only [isErrorRetryable, if_false, Bool.false_eq_true, false_or]
      constructor
      · intro h
        refine ⟨r, rfl, ?_⟩
        by_cases h5 : 500 ≤ r.status ∧ r.status ≤ 599
        · exact Or.inl h5
        · rw [if_neg h5] at h
          by_cases h4 : r.status = 429
          · exact Or.inr h4
          · rw [if_neg h4] at h
            exact absurd h (by simp)
      · rintro ⟨r', hr', hcase⟩
        injection hr' with hr'
        subst hr'
        rcases hcase with h5 | h4
        · rw [if_pos h5]
        · by_cases h5 : 500 ≤ r.status ∧ r.status ≤ 599
          · rw [if_pos h5]
          · rw [if_neg h5, if_pos h4]
  · simp [isErrorRetryable]

/-- The retry loop never issues more than one attempt beyond the configured
number of retries. -/
theorem dispatchGo_attempts_le (endpoint : String) (outcomes : Nat → Attempt) :
    ∀ n idx, (dispatchGo endpoint outcomes n idx).attempts ≤ n + 1
  | n, idx => by
    rw [dispatchGo]
    cases houtcome : outcomes idx with
    | ok r => simp
    | err e =>
      dsimp only
      by_cases hr : isErrorRetryable e
      · rw [if_pos hr]
        cases n with
        | zero => simp
        | succ m =>
          have ih := dispatchGo_attempts_le endpoint outcomes m (idx + 1)
          simp only
          omega
      · rw [if_neg hr]
        simp

/-- Under persistently retryable failures, the retry loop uses every retry
and settles with the error of the final attempt. -/
theorem dispatchGo_persistent (endpoint : String) (outcomes : Nat → Attempt)
    (es : Nat → AxiosError) :
    ∀ n idx,
      (∀ j, j ≤ n → outcomes (idx + j) = Attempt.err (es (idx + j)) ∧
        isErrorRetryable (es (idx + j)) = true) →
      (dispatchGo endpoint outcomes n idx).attempts = n + 1 ∧
      (dispatchGo endpoint outcomes n idx).outcome = Except.error (es (idx + n))
  | 0, idx, h => by
    have h0 := h 0 (Nat.le_refl 0)
    rw [Nat.add_zero] at h0
    simp [dispatchGo, h0.1, h0.2]
  | n + 1, idx, h => by
    have h0 := h 0 (Nat.zero_le _)
    rw [Nat.add_zero] at h0
    have ih := dispatchGo_persistent endpoint outcomes es n (idx + 1) (fun j hj => by
      rw [show idx + 1 + j = idx + (j + 1) from by omega]
      exact h (j + 1) (by omega))
    rw [dispatchGo, h0.1]
    dsimp only
    rw [if_pos h0.2]
    constructor
    · simp only
      omega
    · simp only
      rw [show idx + (n + 1) = idx + 1 + n from by omega]
      exact ih.2

/-- Every attempt that was followed by a further attempt had failed with a
retryable error: no fulfilled and no non-retryably-failed exchange is ever
retried. -/
theorem dispatchGo_followed (endpoint : String) (outcomes : Nat → Attempt) :
    ∀ n idx k, k + 1 < (dispatchGo endpoint outcomes n idx).attempts →
      ∃ e, outcomes (idx + k) = Attempt.err e ∧ isErrorRetryable e = true
  | n, idx, k, hk => by
    rw [dispatchGo] at hk
    cases houtcome : outcomes idx with
    | ok r =>
      rw [houtcome] at hk
      simp at hk
    | err e =>
      rw [houtcome] at hk
      dsimp only at hk
      by_cases hr : isErrorRetryable e
      · rw [if_pos hr] at hk
        cases n with
        | zero => simp at hk
        | succ m =>
          simp only at hk
          cases k with
          | zero => exact ⟨e, by simpa using houtcome, hr⟩
          | succ j =>
            obtain ⟨e', he', hre'⟩ :=
              dispatchGo_followed endpoint outcomes m (idx + 1) j (by omega)
            exact ⟨e', by rwa [show idx + (j + 1) = idx + 1 + j from by omega], hre'⟩
      · rw [if_neg hr] at hk
        simp at hk

/-- A terminally failed retry loop emits exactly the one terminal error log
line, and its settled error is one of the attempts' own errors. -/
theorem dispatchGo_error_log (endpoint : String) (outcomes : Nat → Attempt) :
    ∀ n idx e, (dispatchGo endpoint outcomes n idx).outcome = Except.error e →
      (dispatchGo endpoint outcomes n idx).log = [failureLogEntry endpoint e] ∧
      ∃ k, outcomes k = Attempt.err e
  | n, idx, e, h => by
    rw [dispatchGo] at h ⊢
    cases houtcome : outcomes idx with
    | ok r =>
      rw [houtcome] at h
      simp at h
    | err e' =>
      rw [houtcome] at h
      dsimp only at h ⊢
      by_cases hr : isErrorRetryable e'
      · rw [if_pos hr] at h ⊢
        cases n with
        | zero =>
          simp only [Except.error.injEq] at h
          subst h
          exact ⟨rfl, idx, houtcome⟩
        | succ m =>
          simp only at h ⊢
          exact dispatchGo_error_log endpoint outcomes m (idx + 1) e h
      · rw [if_neg hr] at h ⊢
        simp only [Except.error.injEq] at h
        subst h
        exact ⟨rfl, idx, houtcome⟩

/-- C2. With retryCount N and every attempt failing retryably, the
dispatcher performs exactly N retries, N + 1 total attempts, and surfaces
the final error; in general no run exceeds N + 1 attempts, and every
attempt that was followed by a retry had failed with a retryable
classification — so no fulfilled and no non-retryably-failed exchange is
ever retried. -/
theorem C2_retry_bound (endpoint : String) (N : Nat) (outcomes : Nat → Attempt)
    (es : Nat → AxiosError) :
    ((∀ i, i ≤ N → outcomes i = Attempt.err (es i) ∧ isErrorRetryable (es i) = true) →
      (requestKlaviyoCall endpoint N outcomes).attempts = N + 1 ∧
      (requestKlaviyoCall endpoint N outcomes).outcome = Except.error (es N)) ∧
    (requestKlaviyoCall endpoint N outcomes).attempts ≤ N + 1 ∧
    (∀ k, k + 1 < (requestKlaviyoCall endpoint N outcomes).attempts →
      ∃ e, outcomes k = Attempt.err e ∧ isErrorRetryable e = true) := by
  refine ⟨?_, ?_, ?_⟩
  · intro h
    have hp := dispatchGo_persistent endpoint outcomes es N 0 (fun j hj => by
      simpa using h j hj)
    exact ⟨by simpa [requestKlaviyoCall] using hp.1,
           by simpa [requestKlaviyoCall] using hp.2⟩
  · simpa [requestKlaviyoCall] using dispatchGo_attempts_le endpoint outcomes N 0
  · intro k hk
    have := dispatchGo_followed endpoint outcomes N 0 k
      (by simpa [requestKlaviyoCall] using hk)
    simpa using this

/-- Witness for C2 at retryCount 2 and a transport failing every attempt
with a network error: three total attempts, the error surfaced. -/
theorem C2_retry_bound_witness :
    (requestKlaviyoCall "https://a.klaviyo.com/api/track" 2
        (fun _ => Attempt.err ⟨true, none⟩)).attempts = 2 + 1 ∧
    (requestKlaviyoCall "https://a.klaviyo.com/api/track" 2
        (fun _ => Attempt.err ⟨true, none⟩)).outcome =
      Except.error ((fun _ : Nat => (⟨true, none⟩ : AxiosError)) 2) :=
  (C2_retry_bound "https://a.klaviyo.com/api/track" 2
      (fun _ => Attempt.err ⟨true, none⟩) (fun _ => ⟨true, none⟩)).1
    (fun _ _ => ⟨rfl, rfl⟩)

/-- C3. A dispatched request fulfilled with decoded body equal to the
literal 0 resolves successfully with 0 after a warn-level log line: one
attempt, no retry, not an error. -/
theorem C3_soft_rejection (endpoint : String) (N : Nat) (outcomes : Nat → Attempt)
    (r : HttpResponse) (hfirst : outcomes 0 = Attempt.ok r)
    (hzero : r.data = JValue.num 0) :
    (requestKlaviyoCall endpoint N outcomes).attempts = 1 ∧
    (LogLevel.warn, "Klaviyo rejected the track request") ∈
      (requestKlaviyoCall endpoint N outcomes).log ∧
    (requestKlaviyoCall endpoint N outcomes).outcome = Except.ok (JValue.num 0) := by
  rw [requestKlaviyoCall, dispatchGo, hfirst]
  simp [successLogEntry, hzero, isLiteralZero]

/-- Witness for C3 on a transport returning HTTP 200 with body 0. -/
theorem C3_soft_rejection_witness :
    (requestKlaviyoCall "https://a.klaviyo.com/api/track" 3
        (fun _ => Attempt.ok ⟨200, JValue.num 0⟩)).attempts = 1 ∧
    (LogLevel.warn, "Klaviyo rejected the track request") ∈
      (requestKlaviyoCall "https://a.klaviyo.com/api/track" 3
        (fun _ => Attempt.ok ⟨200, JValue.num 0⟩)).log ∧
    (requestKlaviyoCall "https://a.klaviyo.com/api/track" 3
        (fun _ => Attempt.ok ⟨200, JValue.num 0⟩)).outcome =
      Except.ok (JValue.num 0) :=
  C3_soft_rejection "https://a.klaviyo.com/api/track" 3 _ ⟨200, JValue.num 0⟩ rfl rfl

/-- C7. The backoff delay is strictly increasing in the retry number, with
no fixed cap. -/
theorem C7_backoff_monotone (m n : Nat) (h : m < n) :
    exponentialDelay m < exponentialDelay n ∧
    ∀ cap, ∃ k, cap < exponentialDelay k := by
  constructor
  · have h2 : (2 : Nat) ^ m < 2 ^ n := Nat.pow_lt_pow_right (by omega) h
    simp only [exponentialDelay]
    exact Nat.mul_lt_mul_of_lt_of_le h2 (Nat.le_refl 100) (by omega)
  · intro cap
    refine ⟨cap, lt_of_lt_of_le (Nat.lt_two_pow cap) ?_⟩
    simp only [exponentialDelay]
    exact Nat.le_mul_of_pos_right (2 ^ cap) (by omega)

/-- Witness for C7 at retry numbers 1 and 2. -/
theorem C7_backoff_monotone_witness :
    1 < 2 ∧ (exponentialDelay 1 < exponentialDelay 2 ∧
      ∀ cap, ∃ k, cap < exponentialDelay k) :=
  ⟨by decide, C7_backoff_monotone 1 2 (by decide)⟩

/-- C8. A terminally failed dispatched request is logged exactly once at
error level, with the response's HTTP status as descriptor, or with the
source's unknown-status descriptor when no response was received, and the
call is rejected with the underlying error itself, which is the error of
one of the issued attempts. -/
theorem C8_terminal_failure_logging (endpoint : String) (N : Nat)
    (outcomes : Nat → Attempt) (e : AxiosError)
    (hterm : (requestKlaviyoCall endpoint N outcomes).outcome = Except.error e) :
    ((requestKlaviyoCall endpoint N outcomes).log.filter
        (fun entry => entry.1 == LogLevel.error)) =
      [(LogLevel.error, "Encountered " ++ statusDescriptor e ++ " from GET to " ++ endpoint)] ∧
    (∃ k, outcomes k = Attempt.err e) ∧
    (∀ r, e.response = some r → statusDescriptor e = toString r.status) ∧
    (e.response = none → statusDescriptor e = "Unkown Status") := by
  have hout : (dispatchGo endpoint outcomes N 0).outcome = Except.error e := by
    simpa [requestKlaviyoCall] using hterm
  obtain ⟨hlog, hk⟩ := dispatchGo_error_log endpoint outcomes N 0 e hout
  refine ⟨?_, hk, ?_, ?_⟩
  · simp only [requestKlaviyoCall, hlog, failureLogEntry]
    rfl
  · intro r hr
    simp [statusDescriptor, hr]
  · intro hr
    simp [statusDescriptor, hr]

/-- Witness for C8 on a transport failing once, non-retryably, with a 404
response. -/
theorem C8_terminal_failure_logging_witness :
    ((requestKlaviyoCall "https://a.klaviyo.com/api/track" 3
        (fun _ => Attempt.err ⟨false, some ⟨404, JValue.num 0⟩⟩)).log.filter
        (fun entry => entry.1 == LogLevel.error)) =
      [(LogLevel.error, "Encountered " ++ statusDescriptor ⟨false, some ⟨404, JValue.num 0⟩⟩ ++
        " from GET to " ++ "https://a.klaviyo.com/api/track")] ∧
    (∃ k, (fun _ : Nat => Attempt.err (⟨false, some ⟨404, JValue.num 0⟩⟩ : AxiosError)) k =
      Attempt.err ⟨false, some ⟨404, JValue.num 0⟩⟩) ∧
    (∀ r, (⟨false, some ⟨404, JValue.num 0⟩⟩ : AxiosError).response = some r →
      statusDescriptor ⟨false, some ⟨404, JValue.num 0⟩⟩ = toString r.status) ∧
    ((⟨false, some ⟨404, JValue.num 0⟩⟩ : AxiosError).response = none →
      statusDescriptor ⟨false, some ⟨404, JValue.num 0⟩⟩ = "Unkown Status") :=
  C8_terminal_failure_logging "https://a.klaviyo.com/api/track" 3
    (fun _ => Attempt.err ⟨false, some ⟨404, JValue.num 0⟩⟩)
    ⟨false, some ⟨404, JValue.num 0⟩⟩ rfl

/-- C4. Every precondition violation — track or identify without a truthy
identifier property, suppress with an empty email or without a configured
private key, subscribe with an empty listId, an absent or empty emails
array, or without a configured private key — settles synchronously as a
descriptive assertion failure with zero HTTP attempts issued, hence before
any network request and never retried. -/
theorem C4_precondition_failures (c : KlaviyoClient) (eventName email listId : String)
    (cps eps : List (String × JValue)) (l : List String) (N : Nat)
    (outcomes : Nat → Attempt) :
    ((jsTruthy (cps.lookup "$email") = false → jsTruthy (cps.lookup "$id") = false →
      runCall (track c eventName cps eps) N outcomes =
        (0, CallOutcome.raised "No identifier ($email or $id) found in customerProperties") ∧
      runCall (identify c cps) N outcomes =
        (0, CallOutcome.raised "No identifier ($email or $id) found in customerProperties"))) ∧
    (runCall (suppress c "") N outcomes = (0, CallOutcome.raised "Email is required")) ∧
    (ensurePrivateKey c = false → email ≠ "" →
      runCall (suppress c email) N outcomes =
        (0, CallOutcome.raised "Klaviyo private key not set")) ∧
    (runCall (subscribe c "" (some l)) N outcomes =
      (0, CallOutcome.raised "listId is required")) ∧
    (listId ≠ "" →
      runCall (subscribe c listId none) N outcomes =
        (0, CallOutcome.raised "Parmeter emails is not valid array") ∧
      runCall (subscribe c listId (some [])) N outcomes =
        (0, CallOutcome.raised "Parmeter emails is not valid array")) ∧
    (ensurePrivateKey c = false → listId ≠ "" → l ≠ [] →
      runCall (subscribe c listId (some l)) N outcomes =
        (0, CallOutcome.raised "Klaviyo private key not set")) := by
  refine ⟨?_, ?_, ?_, ?_, ?_, ?_⟩
  · intro h1 h2
    have hid : ensureIdentifier cps = false := by
      simp [ensureIdentifier, h1, h2]
    exact ⟨by simp [runCall, track, hid], by simp [runCall, identify, hid]⟩
  · simp [runCall, suppress]
  · intro hkey hemail
    have hb : (email != "") = true := by simpa using hemail
    simp [runCall, suppress, hb, hkey]
  · simp [runCall, subscribe]
  · intro hlist
    have hb : (listId != "") = true := by simpa using hlist
    exact ⟨by simp [runCall, subscribe, hb], by simp [runCall, subscribe, hb]⟩
  · intro hkey hlist hne
    have hb : (listId != "") = true := by simpa using hlist
    have hlen : l.length ≠ 0 := by simpa using hne
    simp [runCall, subscribe, hb, hlen, hkey]

/-- Witness for C4 across its scenarios: a client without a private key,
empty property bag, empty email, empty listId, absent and empty email
lists. -/
theorem C4_precondition_failures_witness :
    (runCall (track ⟨"pk", none, "https://a.klaviyo.com/api"⟩ "ev" [] []) 3
        (fun _ => Attempt.ok ⟨200, JValue.num 1⟩) =
      (0, CallOutcome.raised "No identifier ($email or $id) found in customerProperties")) ∧
    (runCall (identify ⟨"pk", none, "https://a.klaviyo.com/api"⟩ []) 3
        (fun _ => Attempt.ok ⟨200, JValue.num 1⟩) =
      (0, CallOutcome.raised "No identifier ($email or $id) found in customerProperties")) ∧
    (runCall (suppress ⟨"pk", none, "https://a.klaviyo.com/api"⟩ "") 3
        (fun _ => Attempt.ok ⟨200, JValue.num 1⟩) =
      (0, CallOutcome.raised "Email is required")) ∧
    (runCall (suppress ⟨"pk", none, "https://a.klaviyo.com/api"⟩ "a@b.com") 3
        (fun _ => Attempt.ok ⟨200, JValue.num 1⟩) =
      (0, CallOutcome.raised "Klaviyo private key not set")) ∧
    (runCall (subscribe ⟨"pk", none, "https://a.klaviyo.com/api"⟩ "" (some ["a@b.com"])) 3
        (fun _ => Attempt.ok ⟨200, JValue.num 1⟩) =
      (0, CallOutcome.raised "listId is required")) ∧
    (runCall (subscribe ⟨"pk", none, "https://a.klaviyo.com/api"⟩ "list123" none) 3
        (fun _ => Attempt.ok ⟨200, JValue.num 1⟩) =
      (0, CallOutcome.raised "Parmeter emails is not valid array")) ∧
    (runCall (subscribe ⟨"pk", none, "https://a.klaviyo.com/api"⟩ "list123" (some [])) 3
        (fun _ => Attempt.ok ⟨200, JValue.num 1⟩) =
      (0, CallOutcome.raised "Parmeter emails is not valid array")) ∧
    (runCall (subscribe ⟨"pk", none, "https://a.klaviyo.com/api"⟩ "list123"
        (some ["a@b.com"])) 3 (fun _ => Attempt.ok ⟨200, JValue.num 1⟩) =
      (0, CallOutcome.raised "Klaviyo private key not set")) := by
  have h := C4_precondition_failures ⟨"pk", none, "https://a.klaviyo.com/api"⟩
    "ev" "a@b.com" "list123" [] [] ["a@b.com"] 3 (fun _ => Attempt.ok ⟨200, JValue.num 1⟩)
  exact ⟨(h.1 rfl rfl).1, (h.1 rfl rfl).2, h.2.1,
    h.2.2.1 rfl (by decide), h.2.2.2.1,
    (h.2.2.2.2.1 (by decide)).1, (h.2.2.2.2.1 (by decide)).2,
    h.2.2.2.2.2 rfl (by decide) (by decide)⟩

/-- Unfolding of runCall on a successfully built request. -/
theorem runCall_ok (rq : RequestSpec) (N : Nat) (outcomes : Nat → Attempt) :
    runCall (Except.ok rq) N outcomes =
      ((requestKlaviyoCall rq.url N outcomes).attempts,
        match (requestKlaviyoCall rq.url N outcomes).outcome with
        | Except.ok v => CallOutcome.resolved v
        | Except.error e => CallOutcome.rejected e) := rfl

/-- C5. A track call passing the identifier precondition issues exactly one
GET request to the track path of the base URL, carrying a single query
parameter named data whose value is the base64 encoding of the JSON text of
the object with fields event, properties, customer_properties and token
(the configured public key) — base64-decoding the value recovers exactly
that JSON text's bytes — and a fulfilled 2xx exchange with body 1 resolves
the call with 1 after one attempt. -/
theorem C5_track_request (c : KlaviyoClient) (eventName : String)
    (customerProperties eventProperties : List (String × JValue))
    (N : Nat) (outcomes : Nat → Attempt) (r : HttpResponse)
    (hid : ensureIdentifier customerProperties = true)
    (hfirst : outcomes 0 = Attempt.ok r) (hone : r.data = JValue.num 1) :
    ∃ spec : RequestSpec,
      track c eventName customerProperties eventProperties = Except.ok spec ∧
      spec.method = "get" ∧
      spec.url = c.apiBasePath ++ "/track" ∧
      spec.data = none ∧
      spec.params = some [("data", base64EncodeString (stringifyV (JValue.obj
        [("event", JValue.str eventName),
         ("properties", JValue.obj eventProperties),
         ("customer_properties", JValue.obj customerProperties),
         ("token", JValue.str c.publicKey)])))] ∧
      base64DecodeToBytes (base64EncodeString (stringifyV (JValue.obj
        [("event", JValue.str eventName),
         ("properties", JValue.obj eventProperties),
         ("customer_properties", JValue.obj customerProperties),
         ("token", JValue.str c.publicKey)]))) =
        some (strBytes (stringifyV (JValue.obj
        [("event", JValue.str eventName),
         ("properties", JValue.obj eventProperties),
         ("customer_properties", JValue.obj customerProperties),
         ("token", JValue.str c.publicKey)]))) ∧
      runCall (track c eventName customerProperties eventProperties) N outcomes =
        (1, CallOutcome.resolved (JValue.num 1)) := by
  refine ⟨requestKlaviyoSpec c none "track"
      (some [("data", base64EncodeString (stringifyV (JValue.obj
        [("event", JValue.str eventName),
         ("properties", JValue.obj eventProperties),
         ("customer_properties", JValue.obj customerProperties),
         ("token", JValue.str c.publicKey)])))]) none "get",
    ?_, rfl, ?_, rfl, rfl, base64_roundtrip _, ?_⟩
  · rw [track, if_pos hid]
  · show endpointUrl c.apiBasePath none "track" = c.apiBasePath ++ "/track"
    rw [endpointUrl]
    rw [String.append_assoc]
    rfl
  · rw [track, if_pos hid, runCall_ok]
    rw [requestKlaviyoCall, dispatchGo, hfirst]
    dsimp only
    rw [hone]

/-- Witness for C5 on the spec's scenario: a track event with an email
identifier against a transport fulfilling with HTTP 200 and body 1. -/
theorem C5_track_request_witness :
    ensureIdentifier [("$email", JValue.str "a@b.com")] = true ∧
    (∃ spec : RequestSpec,
      track ⟨"pk", none, "https://a.klaviyo.com/api"⟩ "Filled out profile"
          [("$email", JValue.str "a@b.com")] [] = Except.ok spec ∧
      spec.method = "get" ∧
      spec.url = "https://a.klaviyo.com/api" ++ "/track" ∧
      spec.data = none ∧
      spec.params = some [("data", base64EncodeString (stringifyV (JValue.obj
        [("event", JValue.str "Filled out profile"),
         ("properties", JValue.obj []),
         ("customer_properties", JValue.obj [("$email", JValue.str "a@b.com")]),
         ("token", JValue.str "pk")])))] ∧
      base64DecodeToBytes (base64EncodeString (stringifyV (JValue.obj
        [("event", JValue.str "Filled out profile"),
         ("properties", JValue.obj []),
         ("customer_properties", JValue.obj [("$email", JValue.str "a@b.com")]),
         ("token", JValue.str "pk")]))) =
        some (strBytes (stringifyV (JValue.obj
        [("event", JValue.str "Filled out profile"),
         ("properties", JValue.obj []),
         ("customer_properties", JValue.obj [("$email", JValue.str "a@b.com")]),
         ("token", JValue.str "pk")]))) ∧
      runCall (track ⟨"pk", none, "https://a.klaviyo.com/api"⟩ "Filled out profile"
          [("$email", JValue.str "a@b.com")] []) 3
          (fun _ => Attempt.ok ⟨200, JValue.num 1⟩) =
        (1, CallOutcome.resolved (JValue.num 1))) :=
  ⟨by decide,
    C5_track_request ⟨"pk", none, "https://a.klaviyo.com/api"⟩ "Filled out profile"
      [("$email", JValue.str "a@b.com")] [] 3
      (fun _ => Attempt.ok ⟨200, JValue.num 1⟩) ⟨200, JValue.num 1⟩
      (by decide) rfl rfl⟩

/-- C6. A subscribe call passing its preconditions issues one POST to the
v2 subscribe path of the given list, with no query parameters, whose body
carries the configured private key as api_key and one profile entry per
non-falsy element of the email list, in order, the falsy (empty-string)
entries filtered out. -/
theorem C6_subscribe_request (c : KlaviyoClient) (listId : String) (l : List String)
    (hlist : listId ≠ "") (hne : l ≠ []) (hkey : ensurePrivateKey c = true) :
    ∃ spec : RequestSpec,
      subscribe c listId (some l) = Except.ok spec ∧
      spec.method = "post" ∧
      spec.url = c.apiBasePath ++ "/v2/list/" ++ listId ++ "/subscribe" ∧
      spec.params = none ∧
      spec.data = some (BodyPayload.json (privateKeyValue c)
        ((l.filter (fun e => e != "")).map (fun email => ⟨email⟩))) ∧
      ((l.filter (fun e => e != "")).map
          (fun email => (⟨email⟩ : ProfileEntry))).map ProfileEntry.email =
        l.filter (fun e => e != "") := by
  have hb : (listId != "") = true := by simpa using hlist
  have hlen : l.length ≠ 0 := by simpa using hne
  refine ⟨requestKlaviyoSpec c (some "v2") ("list/" ++ listId ++ "/subscribe") none
      (some (BodyPayload.json (privateKeyValue c)
        ((l.filter (fun e => e != "")).map (fun email => ⟨email⟩)))) "post",
    ?_, rfl, ?_, rfl, rfl, ?_⟩
  · simp [subscribe, hb, hkey, hlen]
  · show c.apiBasePath ++ "/v2/" ++ ("list/" ++ listId ++ "/subscribe") =
      c.apiBasePath ++ "/v2/list/" ++ listId ++ "/subscribe"
    simp only [← String.append_assoc]
    rw [String.append_assoc c.apiBasePath "/v2/" "list/"]
    rfl
  · have hcomp : (ProfileEntry.email ∘ fun email => (⟨email⟩ : ProfileEntry)) = id := by
      funext e
      rfl
    simp [List.map_map, hcomp]

/-- Witness for C6 on the spec's scenario: subscribe of list123 with one
empty email among three. -/
theorem C6_subscribe_request_witness :
    "list123" ≠ "" ∧ (["a@b.com", "", "c@d.com"] : List String) ≠ [] ∧
    ensurePrivateKey ⟨"pk", some "sk", "https://a.klaviyo.com/api"⟩ = true ∧
    (∃ spec : RequestSpec,
      subscribe ⟨"pk", some "sk", "https://a.klaviyo.com/api"⟩ "list123"
          (some ["a@b.com", "", "c@d.com"]) = Except.ok spec ∧
      spec.method = "post" ∧
      spec.url = "https://a.klaviyo.com/api" ++ "/v2/list/" ++ "list123" ++ "/subscribe" ∧
      spec.params = none ∧
      spec.data = some (BodyPayload.json
        (privateKeyValue ⟨"pk", some "sk", "https://a.klaviyo.com/api"⟩)
        ((["a@b.com", "", "c@d.com"].filter (fun e => e != "")).map
          (fun email => ⟨email⟩))) ∧
      ((["a@b.com", "", "c@d.com"].filter (fun e => e != "")).map
          (fun email => (⟨email⟩ : ProfileEntry))).map ProfileEntry.email =
        ["a@b.com", "", "c@d.com"].filter (fun e => e != "")) :=
  ⟨by decide, by decide, by decide,
    C6_subscribe_request ⟨"pk", some "sk", "https://a.klaviyo.com/api"⟩ "list123"
      ["a@b.com", "", "c@d.com"] (by decide) (by decide) (by decide)⟩

/-- C10. A subscribe call with a non-empty listId and a non-empty email
array all of whose entries are falsy passes the precondition check — only
emptiness of the array is tested, before filtering — and a POST request is
dispatched whose profiles list is empty. -/
theorem C10_all_falsy_profiles (c : KlaviyoClient) (listId : String) (l : List String)
    (hlist : listId ≠ "") (hne : l ≠ []) (hall : ∀ e ∈ l, e = "")
    (hkey : ensurePrivateKey c = true) :
    ∃ spec : RequestSpec,
      subscribe c listId (some l) = Except.ok spec ∧
      spec.method = "post" ∧
      spec.data = some (BodyPayload.json (privateKeyValue c) []) := by
  have hb : (listId != "") = true := by simpa using hlist
  have hlen : l.length ≠ 0 := by simpa using hne
  have hfil : l.filter (fun e => e != "") = [] := by
    rw [List.filter_eq_nil_iff]
    intro a ha
    simp [hall a ha]
  refine ⟨requestKlaviyoSpec c (some "v2") ("list/" ++ listId ++ "/subscribe") none
      (some (BodyPayload.json (privateKeyValue c) [])) "post", ?_, rfl, rfl⟩
  simp [subscribe, hb, hkey, hlen, hfil]

/-- Witness for C10: subscribe with a single empty-string email. -/
theorem C10_all_falsy_profiles_witness :
    "listX" ≠ "" ∧ ([""] : List String) ≠ [] ∧ (∀ e ∈ ([""] : List String), e = "") ∧
    ensurePrivateKey ⟨"pk", some "sk", "https://a.klaviyo.com/api"⟩ = true ∧
    (∃ spec : RequestSpec,
      subscribe ⟨"pk", some "sk", "https://a.klaviyo.com/api"⟩ "listX" (some [""]) =
        Except.ok spec ∧
      spec.method = "post" ∧
      spec.data = some (BodyPayload.json
        (privateKeyValue ⟨"pk", some "sk", "https://a.klaviyo.com/api"⟩) [])) :=
  ⟨by decide, by decide, by decide, by decide,
    C10_all_falsy_profiles ⟨"pk", some "sk", "https://a.klaviyo.com/api"⟩ "listX" [""]
      (by decide) (by decide) (by decide) (by decide)⟩

/-- C9. Refutation evidence: the constructor registers its retry
configuration on the module-global axios instance, so constructing a second
client with a different retryCount changes the shared state that governs
the retry behavior of calls issued through the first client — construction
does not mutate only call-local and instance-own state. -/
theorem C9_shared_global_retry_state :
    ∃ (clientA : KlaviyoClient) (st1 : AxiosGlobalState) (clientB : KlaviyoClient)
      (st2 : AxiosGlobalState),
      klaviyoConstructor [] "pk1" (some "sk") 5 "https://a.klaviyo.com/api" =
        Except.ok (clientA, st1) ∧
      klaviyoConstructor st1 "pk2" (some "sk") 0 "https://a.klaviyo.com/api" =
        Except.ok (clientB, st2) ∧
      retryRegistrationsGoverning clientA st2 ≠ retryRegistrationsGoverning clientA st1 := by
  refine ⟨⟨"pk1", some "sk", "https://a.klaviyo.com/api"⟩, [⟨5⟩],
    ⟨"pk2", some "sk", "https://a.klaviyo.com/api"⟩, [⟨5⟩, ⟨0⟩], rfl, rfl, ?_⟩
  decide
